import Mathlib

/-!
Shallow embedding of the FLWINS2 Express application server logic
(src/app.js, src/config/database.js, src/config/msgraph-account.js and the
EFSMOD invitation helper), together with proofs of the specification claims.

JavaScript conventions used throughout the embedding:
* a possibly-absent string value (undefined / null / string) is `Option String`;
* JS truthiness of such a value: absent and the empty string are falsy;
* the JS expression a || b is `jsOr a b`;
* randomness (Math.random) is a parameter of the embedded function;
* outbound HTTP calls are parameters describing the response of each call.
-/

/-- JS truthiness of a possibly-absent string: undefined, null and the empty
string are falsy. -/

def truthy (v : Option String) : Bool :=
  match v with
  | none => false
  | some s => !s.isEmpty

/-- The JS expression a || b on possibly-absent strings. -/

def jsOr (a b : Option String) : Option String :=
  if truthy a then a else b

deriving instance DecidableEq for Except

/-! ## generateInitialPassword (src/config/msgraph-account.js, lines 101-111)

The four fixed character sets, the 4+4+4+4+4 draw, the shuffle by
`.sort` with a random comparator, and the final `.slice(0, 20)`.
The random index Math.floor(Math.random() * set.length) is modelled by a
stream `r : Nat -> Nat` reduced modulo the set length; the shuffle is
modelled by an arbitrary reordering function `sort` constrained (in the
theorems) to produce a permutation of its input, which is the guarantee
Array.prototype.sort gives for an inconsistent comparator. -/

def upperChars : List Char := "ABCDEFGHJKLMNPQRSTUVWXYZ".toList

def lowerChars : List Char := "abcdefghijkmnopqrstuvwxyz".toList

def numChars : List Char := "23456789".toList

def specialChars : List Char := "!@#$%^&*()-_=+[]\x7b\x7d".toList

def allChars : List Char := upperChars ++ lowerChars ++ numChars ++ specialChars

/-- One random draw set[Math.floor(Math.random()*set.length)]. -/

def randPick (set : List Char) (k : Nat) : Char :=
  set.getD (k % set.length) 'A'

/-- rand(n, set): n independent draws from the set, consuming the random
stream from offset `off`. -/

def randStr (n : Nat) (set : List Char) (r : Nat → Nat) (off : Nat) : List Char :=
  (List.range n).map (fun i => randPick set (r (off + i)))

/-- The unshuffled base string: rand(4,upper)+rand(4,lower)+rand(4,nums)+
rand(4,special)+rand(4,all). -/

def passwordBase (r : Nat → Nat) : List Char :=
  randStr 4 upperChars r 0 ++ randStr 4 lowerChars r 4 ++ randStr 4 numChars r 8 ++
    randStr 4 specialChars r 12 ++ randStr 4 allChars r 16

/-- generateInitialPassword: shuffle the base and keep the first 20
characters. -/

def generateInitialPassword (r : Nat → Nat) (sort : List Char → List Char) : List Char :=
  (sort (passwordBase r)).take 20

/-! ## loadClientCredentials (src/config/msgraph-account.js, lines 14-44)

The environment and the client-variables file are both modelled as lookup
functions `String -> Option String`. In production mode the file is not
parsed at all (`vars` is the empty map); each credential is a JS || chain
that consults environment spellings first and file spellings last. The ||
chains are nested to the right, which is semantically identical to the
left-nested parse of the source. -/

def emptyVars : String → Option String := fun _ => none

structure ClientCredentials where
  tenantId : String
  clientId : String
  clientSecret : String
deriving Repr, DecidableEq

def credTenantId (env vars : String → Option String) : Option String :=
  jsOr (env "AZ_TENANT_ID") (jsOr (env "tenantId") (jsOr (env "TENANT_ID")
    (jsOr (vars "tenantId") (jsOr (vars "tennentid") (vars "AZ_TENANT_ID")))))

def credClientId (env vars : String → Option String) : Option String :=
  jsOr (env "AZ_CLIENT_ID") (jsOr (env "clientId") (jsOr (env "CLIENT_ID")
    (jsOr (vars "clientId") (jsOr (vars "clientid") (vars "AZ_CLIENT_ID")))))

def credClientSecret (env vars : String → Option String) : Option String :=
  jsOr (env "AZ_CLIENT_SECRET") (jsOr (env "secret") (jsOr (env "CLIENT_SECRET")
    (jsOr (vars "secret") (vars "AZ_CLIENT_SECRET"))))

def loadClientCredentials (env fileVars : String → Option String) :
    Except String ClientCredentials :=
  let vars := if env "NODE_ENV" = some "production" then emptyVars else fileVars
  let tenantId := credTenantId env vars
  let clientId := credClientId env vars
  let clientSecret := credClientSecret env vars
  if truthy tenantId && truthy clientId && truthy clientSecret then
    Except.ok ⟨tenantId.getD "", clientId.getD "", clientSecret.getD ""⟩
  else
    Except.error "Missing Microsoft Graph client credentials tenantId clientId secret"

/-- A concrete environment supplying all three credentials. -/

def envAllCreds : String → Option String := fun k =>
  if k = "AZ_TENANT_ID" then some "tenant-a"
  else if k = "AZ_CLIENT_ID" then some "client-a"
  else if k = "AZ_CLIENT_SECRET" then some "secret-a" else none

/-! ## GET /api/profile (src/app.js, lines 81-206)

The handler resolves the principal from the platform auth endpoint, builds a
base profile from ordered claim-type aliases (first truthy match wins), and,
when a delegated access token is present, overlays Microsoft Graph fields
with JS || precedence; a failing Graph call is non-fatal. The two outbound
calls are modelled by result values: AuthMeResult for the auth endpoint
(thrown covers a transport or JSON error, caught by the outer handler as a
500) and GraphCallResult for the Graph call (httpError and thrown are both
non-fatal). -/

structure ClaimPair where
  typ : String
  val : Option String
deriving Repr, DecidableEq

/-- getClaimValue: walk the alias list in order; for each type return the
claim value when a claim of that type exists and its value is truthy. -/

def getClaimValue (claims : List ClaimPair) : List String → Option String
  | [] => none
  | t :: rest =>
    match claims.find? (fun c => c.typ == t) with
    | some c => if truthy c.val then c.val else getClaimValue claims rest
    | none => getClaimValue claims rest

structure Principal where
  user_id : Option String
  identity_provider : Option String
  user_claims : List ClaimPair
  access_token : Option String
deriving Repr, DecidableEq

def displayNameClaims : List String :=
  ["name", "http://schemas.microsoft.com/identity/claims/displayname",
    "http://schemas.xmlsoap.org/ws/2005/05/identity/claims/name"]

def firstNameClaims : List String :=
  ["http://schemas.xmlsoap.org/ws/2005/05/identity/claims/givenname", "given_name"]

def lastNameClaims : List String :=
  ["http://schemas.xmlsoap.org/ws/2005/05/identity/claims/surname", "family_name"]

def emailClaims : List String :=
  ["http://schemas.xmlsoap.org/ws/2005/05/identity/claims/emailaddress", "email", "upn"]

def departmentClaims : List String :=
  ["department", "http://schemas.microsoft.com/ws/2008/06/identity/claims/department"]

def jobTitleClaims : List String :=
  ["jobTitle", "http://schemas.microsoft.com/identity/claims/jobtitle"]

def phoneClaims : List String :=
  ["http://schemas.xmlsoap.org/ws/2005/05/identity/claims/otherphone", "phone_number"]

structure Profile where
  id : Option String
  displayName : Option String
  firstName : Option String
  lastName : Option String
  email : Option String
  department : Option String
  jobTitle : Option String
  phone : Option String
  officeLocation : Option String
deriving Repr, DecidableEq

/-- The claims-only base profile (baseProfile has no officeLocation key, so
that field starts out absent). -/

def baseProfile (p : Principal) : Profile :=
  { id := p.user_id
    displayName := getClaimValue p.user_claims displayNameClaims
    firstName := getClaimValue p.user_claims firstNameClaims
    lastName := getClaimValue p.user_claims lastNameClaims
    email := getClaimValue p.user_claims emailClaims
    department := getClaimValue p.user_claims departmentClaims
    jobTitle := getClaimValue p.user_claims jobTitleClaims
    phone := getClaimValue p.user_claims phoneClaims
    officeLocation := none }

structure GraphProfile where
  displayName : Option String
  givenName : Option String
  surname : Option String
  mail : Option String
  userPrincipalName : Option String
  jobTitle : Option String
  department : Option String
  mobilePhone : Option String
  businessPhones : List String
  officeLocation : Option String
deriving Repr, DecidableEq

/-- The Graph overlay, field by field with JS || precedence. -/

def overlayGraph (base : Profile) (g : GraphProfile) : Profile :=
  { base with
    displayName := jsOr g.displayName base.displayName
    firstName := jsOr g.givenName base.firstName
    lastName := jsOr g.surname base.lastName
    email := jsOr g.mail (jsOr g.userPrincipalName base.email)
    department := jsOr g.department base.department
    jobTitle := jsOr g.jobTitle base.jobTitle
    phone := jsOr g.mobilePhone (jsOr g.businessPhones.head? base.phone)
    officeLocation := jsOr g.officeLocation base.officeLocation }

inductive AuthMeResult where
  | ok (data : List Principal)
  | httpError (status : Nat)
  | thrown
deriving Repr, DecidableEq

inductive GraphCallResult where
  | ok (g : GraphProfile)
  | httpError (status : Nat)
  | thrown
deriving Repr, DecidableEq

structure ProfileResponse where
  status : Nat
  profile : Option Profile
  authProvider : Option String
  graph : Option GraphProfile
deriving Repr, DecidableEq

def apiProfile (auth : AuthMeResult) (graphCall : GraphCallResult) : ProfileResponse :=
  match auth with
  | AuthMeResult.thrown =>
    { status := 500, profile := none, authProvider := none, graph := none }
  | AuthMeResult.httpError _ =>
    { status := 401, profile := none, authProvider := none, graph := none }
  | AuthMeResult.ok data =>
    match data.head? with
    | none => { status := 401, profile := none, authProvider := none, graph := none }
    | some principal =>
      if !truthy principal.user_id then
        { status := 401, profile := none, authProvider := none, graph := none }
      else
        let base := baseProfile principal
        if truthy principal.access_token then
          match graphCall with
          | GraphCallResult.ok g =>
            { status := 200, profile := some (overlayGraph base g)
              authProvider := principal.identity_provider, graph := some g }
          | GraphCallResult.httpError _ =>
            { status := 200, profile := some base
              authProvider := principal.identity_provider, graph := none }
          | GraphCallResult.thrown =>
            { status := 200, profile := some base
              authProvider := principal.identity_provider, graph := none }
        else
          { status := 200, profile := some base
            authProvider := principal.identity_provider, graph := none }

/-- The claims used by the C7 witness. -/

def wClaims : List ClaimPair :=
  [{ typ := "name", val := some "Claim Name" },
    { typ := "email", val := some "claim@x.com" }]

/-- The principal used by the C7 witness. -/

def wPrincipal : Principal :=
  { user_id := some "uid1", identity_provider := some "aad"
    user_claims := wClaims, access_token := some "tok" }

/-- The Graph payload used by the C7 witness. -/

def wGraph : GraphProfile :=
  { displayName := some "Graph Name", givenName := none, surname := none
    mail := some "graph@x.com", userPrincipalName := some "upn@x.com"
    jobTitle := none, department := some "Dept", mobilePhone := none
    businessPhones := ["555"], officeLocation := none }

/-! ## GET /api/auth/status and GET /api/auth/me (src/app.js, lines 209-293)

apiAuthStatus decodes the x-ms-client-principal header (base64 + JSON,
modelled by a decode parameter); a decode failure is caught and answered
with 500. apiAuthMe consults the platform auth endpoint; every failure —
including a thrown decode or transport error — is answered with 200 and
authenticated:false (its catch block calls res.json without a status). -/

structure UserInfo where
  userId : Option String
  sid : Option String
  userDetails : Option String
  claims : List ClaimPair
deriving Repr, DecidableEq

structure AuthUser where
  id : Option String
  name : Option String
  email : Option String
  provider : Option String
deriving Repr, DecidableEq

structure AuthStatusResponse where
  status : Nat
  authenticated : Bool
  user : Option AuthUser
deriving Repr, DecidableEq

def emailClaimType : String :=
  "http://schemas.xmlsoap.org/ws/2005/05/identity/claims/emailaddress"

def apiAuthStatus (hdr idp nameHdr : Option String)
    (decode : String → Except String UserInfo) : AuthStatusResponse :=
  if truthy hdr then
    match decode (hdr.getD "") with
    | Except.error _ => { status := 500, authenticated := false, user := none }
    | Except.ok u =>
      { status := 200, authenticated := true
        user := some
          { id := jsOr u.userId u.sid
            name := jsOr u.userDetails nameHdr
            email := (u.claims.find? (fun c => c.typ == emailClaimType)).bind
              (fun c => c.val)
            provider := jsOr idp (some "aad") } }
  else { status := 200, authenticated := false, user := none }

def apiAuthMe (auth : AuthMeResult) : AuthStatusResponse :=
  match auth with
  | AuthMeResult.thrown => { status := 200, authenticated := false, user := none }
  | AuthMeResult.httpError _ => { status := 200, authenticated := false, user := none }
  | AuthMeResult.ok data =>
    match data.head? with
    | none => { status := 200, authenticated := false, user := none }
    | some u =>
      if truthy u.user_id then
        { status := 200, authenticated := true
          user := some
            { id := u.user_id
              name := jsOr ((u.user_claims.find? (fun c => c.typ == "name")).bind
                (fun c => c.val)) u.user_id
              email := (u.user_claims.find? (fun c => c.typ == emailClaimType)).bind
                (fun c => c.val)
              provider := jsOr u.identity_provider (some "aad") } }
      else { status := 200, authenticated := false, user := none }

/-! ## The intake store and upsertIntakeForm
(src/config/database.js, lines 85-197)

The dbo.IntakeForms table is modelled as a list of rows. The T-SQL upsert
runs UPDATE ... WHERE UserId = @UserId on every row with a matching UserId
when one exists, and otherwise inserts a single new row whose CreatedAt and
UpdatedAt both receive @UpdatedAt. -/

structure IntakeForm where
  userId : String
  email : String
  firstName : Option String
  lastName : Option String
  department : Option String
  jobTitle : Option String
  officeLocation : Option String
  workPhone : Option String
  address : Option String
  city : Option String
  state : Option String
  zipCode : Option String
  phone : Option String
deriving Repr, DecidableEq

structure IntakeRow where
  userId : String
  email : String
  firstName : Option String
  lastName : Option String
  department : Option String
  jobTitle : Option String
  officeLocation : Option String
  workPhone : Option String
  address : Option String
  city : Option String
  state : Option String
  zipCode : Option String
  phone : Option String
  createdAt : Nat
  updatedAt : Nat
deriving Repr, DecidableEq

/-- The UPDATE branch: set every mutable field from the form and refresh
UpdatedAt, keeping UserId and CreatedAt. -/

def updateRow (form : IntakeForm) (now : Nat) (row : IntakeRow) : IntakeRow :=
  { row with
    email := form.email
    firstName := form.firstName
    lastName := form.lastName
    department := form.department
    jobTitle := form.jobTitle
    officeLocation := form.officeLocation
    workPhone := form.workPhone
    address := form.address
    city := form.city
    state := form.state
    zipCode := form.zipCode
    phone := form.phone
    updatedAt := now }

/-- The INSERT branch: a new row with CreatedAt = UpdatedAt = @UpdatedAt. -/

def newRow (form : IntakeForm) (now : Nat) : IntakeRow :=
  { userId := form.userId
    email := form.email
    firstName := form.firstName
    lastName := form.lastName
    department := form.department
    jobTitle := form.jobTitle
    officeLocation := form.officeLocation
    workPhone := form.workPhone
    address := form.address
    city := form.city
    state := form.state
    zipCode := form.zipCode
    phone := form.phone
    createdAt := now
    updatedAt := now }

/-- upsertIntakeForm: IF EXISTS (row with this UserId) update all matching
rows, ELSE insert one new row. -/

def upsertIntakeForm (store : List IntakeRow) (form : IntakeForm) (now : Nat) :
    List IntakeRow :=
  if store.any (fun r => r.userId == form.userId) then
    store.map (fun r => if r.userId == form.userId then updateRow form now r else r)
  else
    store ++ [newRow form now]

/-- The §3 invariant: at most one row per userId. -/

def uniqueUserIds (store : List IntakeRow) : Prop :=
  store.Pairwise (fun a b => a.userId ≠ b.userId)

/-- A first submission for user abc123. -/

def sampleForm1 : IntakeForm :=
  { userId := "abc123", email := "old@x.com", firstName := some "Ana"
    lastName := some "Lopez", department := none, jobTitle := none
    officeLocation := none, workPhone := none, address := none
    city := none, state := none, zipCode := none, phone := none }

/-- A second submission for the same user with different values. -/

def sampleForm2 : IntakeForm :=
  { userId := "abc123", email := "ana@x.com", firstName := some "Ana"
    lastName := some "Lopez", department := none, jobTitle := none
    officeLocation := none, workPhone := none, address := none
    city := some "Tampa", state := none, zipCode := none, phone := none }

/-! ## sanitize and makeMailNickname
(src/config/msgraph-account.js, lines 77-90)

sanitize runs str.normalize(NFKD) and then strips every character outside
the regex class of letters, numbers, dot, underscore and hyphen. The NFKD
normalization and the Unicode letter property are modelled for the
character repertoire this development exercises: ASCII characters are
NFKD-stable, and the precomposed Latin vowels and n-tilde decompose into a
base letter plus a combining mark; combining marks are not letters and are
therefore stripped by the regex. -/

def combiningAcute : Char := Char.ofNat 0x301

def combiningTilde : Char := Char.ofNat 0x303

def accentedLetters : List Char :=
  ['á', 'é', 'í', 'ó', 'ú', 'Á', 'É', 'Í', 'Ó', 'Ú', 'ñ', 'Ñ']

/-- NFKD decomposition of one character, on the modelled repertoire. -/

def nfkdChar (c : Char) : List Char :=
  if c = 'á' then ['a', combiningAcute]
  else if c = 'é' then ['e', combiningAcute]
  else if c = 'í' then ['i', combiningAcute]
  else if c = 'ó' then ['o', combiningAcute]
  else if c = 'ú' then ['u', combiningAcute]
  else if c = 'Á' then ['A', combiningAcute]
  else if c = 'É' then ['E', combiningAcute]
  else if c = 'Í' then ['I', combiningAcute]
  else if c = 'Ó' then ['O', combiningAcute]
  else if c = 'Ú' then ['U', combiningAcute]
  else if c = 'ñ' then ['n', combiningTilde]
  else if c = 'Ñ' then ['N', combiningTilde]
  else [c]

def nfkd (s : List Char) : List Char := (s.map nfkdChar).flatten

/-- The character class kept by the regex: letters, digits, dot, underscore,
hyphen (on the modelled repertoire). -/

def isNicknameChar (c : Char) : Bool :=
  c.isAlpha || c.isDigit || c = '.' || c = '_' || c = '-' || accentedLetters.contains c

/-- sanitize(str, opts): non-strings map to the fallback; otherwise NFKD
normalize, strip disallowed characters, substitute the fallback when empty,
and truncate to max characters. -/

def sanitize (str : Option String) (max : Nat) (fallback : String) : String :=
  match str with
  | none => fallback
  | some str =>
    let s := (nfkd str.toList).filter isNicknameChar
    let s := if s.isEmpty then fallback.toList else s
    String.mk (s.take max)

/-- email.split(at-sign)[0]. -/

def localPart (email : String) : String :=
  String.mk (email.toList.takeWhile (fun c => c ≠ '@'))

/-- makeMailNickname: sanitized local part of the email when the email is a
string containing an at-sign, else the sanitized dot-join of the truthy
name fields, with fallback user. -/

def makeMailNickname (firstName lastName email : Option String) : String :=
  if truthy email && (email.getD "").toList.contains '@' then
    sanitize (some (localPart (email.getD ""))) 64 "user"
  else
    let base := String.intercalate "."
      ([firstName, lastName].filterMap (fun o => if truthy o then o else none))
    sanitize (some (if base.isEmpty then "user" else base)) 64 "user"

/-! ## createUserFromIntake and fetchDefaultVerifiedDomain
(src/config/msgraph-account.js, lines 92-204)

The outbound calls (token endpoint, organization endpoint, user-creation
endpoint) are modelled by a GraphEnv record describing each response. The
module-level verified-domain memo caches the identical computed value and is
omitted. String.prototype.trim and toLowerCase are modelled for the ASCII
repertoire the claims exercise. -/

/-- JS String.prototype.trim (whitespace = space, tab, CR, LF). -/

def jsTrim (s : String) : String :=
  String.mk (((s.toList.dropWhile Char.isWhitespace).reverse.dropWhile
    Char.isWhitespace).reverse)

/-- JS String.prototype.toLowerCase on the ASCII repertoire. -/

def jsToLower (s : String) : String :=
  String.mk (s.toList.map fun c =>
    if 'A' ≤ c ∧ c ≤ 'Z' then Char.ofNat (c.toNat + 32) else c)

structure VerifiedDomain where
  name : String
  isDefault : Bool
  isInitial : Bool
  isVerified : Bool
deriving Repr, DecidableEq

/-- An Error object optionally carrying err.status. -/

structure JsError where
  message : String
  status : Option Nat
deriving Repr, DecidableEq

/-- The outbound-call behaviour visible to createUserFromIntake. -/

structure GraphEnv where
  tokenOk : Bool
  orgOk : Bool
  domains : List VerifiedDomain
  createStatus : Nat
deriving Repr, DecidableEq

/-- Domain choice: the first default domain, else the first initial one,
else the first verified one; error when none exists or its name is empty. -/

def fetchDefaultVerifiedDomain (domains : List VerifiedDomain) : Except String String :=
  match (domains.find? (fun d => d.isDefault)).orElse
      (fun _ => (domains.find? (fun d => d.isInitial)).orElse
        (fun _ => domains.find? (fun d => d.isVerified))) with
  | none => Except.error "No verified domains found in tenant."
  | some d =>
    if d.name.isEmpty then Except.error "No verified domains found in tenant."
    else Except.ok d.name

/-- pickUpn: returns null whenever a upnDomain is passed; otherwise the
trimmed email when it is a string containing an at-sign. -/

def pickUpn (email : Option String) (upnDomain : Option String) : Option String :=
  if truthy upnDomain then none
  else if truthy email && (email.getD "").toList.contains '@' then
    some (jsTrim (email.getD ""))
  else none

/-- The upnDomain in force after the override chain
options.upnDomain || process.env.UPN_DOMAIN || null and, when that is null,
the organization-endpoint lookup. -/

def resolveUpnDomain (optionsUpnDomain envUpnDomain : Option String)
    (env : GraphEnv) : Except JsError String :=
  let upnDomain0 := jsOr optionsUpnDomain (jsOr envUpnDomain none)
  if truthy upnDomain0 then Except.ok (upnDomain0.getD "")
  else if !env.orgOk then Except.error ⟨"Failed to read tenant domains", none⟩
  else match fetchDefaultVerifiedDomain env.domains with
    | Except.error m => Except.error ⟨m, none⟩
    | Except.ok d => Except.ok d

/-- The intake object handed to the account provisioner. -/

structure Intake where
  firstName : Option String
  lastName : Option String
  displayName : Option String
  email : Option String
  jobTitle : Option String
  department : Option String
  officeLocation : Option String
  phone : Option String
  workPhone : Option String
  address : Option String
  city : Option String
  state : Option String
  zipCode : Option String
deriving Repr, DecidableEq

/-- The part of the POST body the claims are about. -/

structure CreatedUser where
  displayName : String
  mailNickname : String
  userPrincipalName : String
  otherMails : List String
deriving Repr, DecidableEq

/-- The user-creation POST: success when the status is 2xx, otherwise an
error carrying the upstream status code. -/

def createUserPost (env : GraphEnv)
    (displayName mailNickname userPrincipalName email : String) :
    Except JsError CreatedUser :=
  if 200 ≤ env.createStatus ∧ env.createStatus < 300 then
    Except.ok
      { displayName := displayName
        mailNickname := mailNickname
        userPrincipalName := userPrincipalName
        otherMails :=
          if !email.isEmpty && jsToLower email ≠ jsToLower userPrincipalName then [email]
          else [] }
  else Except.error ⟨"Graph create user failed", some env.createStatus⟩

def createUserFromIntake (intake : Intake) (optionsUpnDomain envUpnDomain : Option String)
    (env : GraphEnv) : Except JsError CreatedUser :=
  if !env.tokenOk then Except.error ⟨"Failed to acquire Graph token", none⟩
  else
    let firstName := jsTrim (intake.firstName.getD "")
    let lastName := jsTrim (intake.lastName.getD "")
    let nameJoin := String.intercalate " " ([firstName, lastName].filter (fun s => !s.isEmpty))
    let displayName :=
      if !nameJoin.isEmpty then nameJoin
      else if truthy intake.displayName then intake.displayName.getD ""
      else "New User"
    let mailNickname := makeMailNickname (some firstName) (some lastName) intake.email
    let email := jsTrim (intake.email.getD "")
    match resolveUpnDomain optionsUpnDomain envUpnDomain env with
    | Except.error e => Except.error e
    | Except.ok upnDomain =>
      match pickUpn intake.email (some upnDomain) with
      | some upn => createUserPost env displayName mailNickname upn email
      | none =>
        if upnDomain.isEmpty then
          Except.error
            ⟨"Cannot determine userPrincipalName. Provide email in intake or set UPN_DOMAIN.",
              none⟩
        else
          createUserPost env displayName mailNickname
            (mailNickname ++ "@" ++ upnDomain) email

/-- The intake of the C3 failing input: an email is present yet never used
for the principal name. -/

def janeIntake : Intake :=
  { firstName := some "Jane", lastName := some "Doe", displayName := none
    email := some "jane.doe@example.com", jobTitle := none, department := none
    officeLocation := none, phone := none, workPhone := none, address := none
    city := none, state := none, zipCode := none }

/-- The tenant default domain used by the concrete inputs. -/

def contosoDomain : VerifiedDomain :=
  { name := "contoso.com", isDefault := true, isInitial := true, isVerified := true }

/-- A fully healthy provider environment whose tenant default domain is
contoso.com. -/

def contosoGraphEnv : GraphEnv :=
  { tokenOk := true, orgOk := true, domains := [contosoDomain], createStatus := 201 }

/-- The same environment with the user-creation call rejected with 403. -/

def contoso403Env : GraphEnv :=
  { tokenOk := true, orgOk := true, domains := [contosoDomain], createStatus := 403 }

/-- An intake with no email at all. -/

def anaIntake : Intake :=
  { firstName := some "Ana", lastName := some "Lopez", displayName := none
    email := none, jobTitle := none, department := none
    officeLocation := none, phone := none, workPhone := none, address := none
    city := none, state := none, zipCode := none }

/-! ## POST /api/intake (route layer orchestration)

The server-side handler for POST /api/intake is code of this repository
that is missing from src: only its client-side callers appear
(public/js/profile.js and the profile-page scripts, which POST the form and
render message, accountCreation and efsmodeInvite from the response). The
handler is therefore modelled from the spec. -/

structure IntakeRequest where
  principal : Option String
  profileEmail : Option String
  payloadEmail : Option String
  persistOk : Bool
  accountCreationError : Option String
  efsmodeInviteError : Option String
deriving Repr, DecidableEq

structure IntakeResponse where
  status : Nat
  dbWritten : Bool
  hasMessage : Bool
  accountCreationError : Option String
  efsmodeInviteError : Option String
deriving Repr, DecidableEq

/-- Modelled from the spec: the POST /api/intake route handler (absent from
src) following the section 4.5 transition rules — resolve the principal or
terminate with 401 before any database access; derive an email from the
profile or the payload or terminate with 400 without writing; upsert, a
failure of which terminates with 500; then attempt provisioning, whose
failures are downgraded to error fields of the 200 response. -/

def apiIntake (req : IntakeRequest) : IntakeResponse :=
  match req.principal with
  | none =>
    { status := 401, dbWritten := false, hasMessage := false
      accountCreationError := none, efsmodeInviteError := none }
  | some _ =>
    if !truthy (jsOr req.profileEmail req.payloadEmail) then
      { status := 400, dbWritten := false, hasMessage := false
        accountCreationError := none, efsmodeInviteError := none }
    else if !req.persistOk then
      { status := 500, dbWritten := false, hasMessage := false
        accountCreationError := none, efsmodeInviteError := none }
    else
      { status := 200, dbWritten := true, hasMessage := true
        accountCreationError := req.accountCreationError
        efsmodeInviteError := req.efsmodeInviteError }

/-- An authenticated request with a payload email whose provisioning failed
but whose persistence succeeded. -/

def okIntakeReq : IntakeRequest :=
  { principal := some "abc123", profileEmail := none
    payloadEmail := some "ana@x.com", persistOk := true
    accountCreationError := some "Graph create user failed"
    efsmodeInviteError := none }

/-- An unauthenticated request. -/

def anonIntakeReq : IntakeRequest :=
  { principal := none, profileEmail := some "ana@x.com"
    payloadEmail := some "ana@x.com", persistOk := true
    accountCreationError := none, efsmodeInviteError := none }

/-! ## Theorems -/

theorem jsOr_of_truthy {a : Option String} (b : Option String) (h : truthy a = true) :
    jsOr a b = a := by
  simp [jsOr, h]

theorem jsOr_of_not_truthy {a : Option String} (b : Option String) (h : truthy a = false) :
    jsOr a b = b := by
  simp [jsOr, h]

theorem randPick_mem (set : List Char) (k : Nat) (h : set ≠ []) : randPick set k ∈ set := by
  unfold randPick
  have hlen : 0 < set.length := List.length_pos.mpr h
  have hk : k % set.length < set.length := Nat.mod_lt _ hlen
  rw [List.getD_eq_getElem _ _ hk]
  exact List.getElem_mem hk

theorem passwordBase_length (r : Nat → Nat) : (passwordBase r).length = 20 := by
  simp [passwordBase, randStr]

theorem mem_passwordBase_mem_allChars (r : Nat → Nat) :
    ∀ c ∈ passwordBase r, c ∈ allChars := by
  intro c hc
  simp only [passwordBase, randStr, List.mem_append, List.mem_map, List.mem_range] at hc
  rcases hc with ((((⟨i, _, rfl⟩ | ⟨i, _, rfl⟩) | ⟨i, _, rfl⟩) | ⟨i, _, rfl⟩) | ⟨i, _, rfl⟩)
  · exact List.mem_append_left _ (List.mem_append_left _ (List.mem_append_left _
      (randPick_mem _ _ (by decide))))
  · exact List.mem_append_left _ (List.mem_append_left _ (List.mem_append_right _
      (randPick_mem _ _ (by decide))))
  · exact List.mem_append_left _ (List.mem_append_right _ (randPick_mem _ _ (by decide)))
  · exact List.mem_append_right _ (randPick_mem _ _ (by decide))
  · exact randPick_mem _ _ (by decide)

theorem generateInitialPassword_eq (r : Nat → Nat) (sort : List Char → List Char)
    (hsort : (sort (passwordBase r)).Perm (passwordBase r)) :
    generateInitialPassword r sort = sort (passwordBase r) := by
  unfold generateInitialPassword
  have hlen : (sort (passwordBase r)).length = 20 :=
    hsort.length_eq.trans (passwordBase_length r)
  exact List.take_of_length_le (by omega)

theorem randStr_head_mem (n : Nat) (set : List Char) (r : Nat → Nat) (off : Nat)
    (h : 0 < n) : randPick set (r off) ∈ randStr n set r off := by
  simp only [randStr, List.mem_map, List.mem_range]
  exact ⟨0, h, by simp⟩

/-- Claim C5: every string returned by generateInitialPassword has length
between 16 and 20 (it is in fact always exactly 20) and contains at least one
character from each of the four required character classes, the characters
being drawn from the fixed class sets and then shuffled. -/

theorem generateInitialPassword_complexity (r : Nat → Nat) (sort : List Char → List Char)
    (hsort : (sort (passwordBase r)).Perm (passwordBase r)) :
    (16 ≤ (generateInitialPassword r sort).length ∧
        (generateInitialPassword r sort).length ≤ 20) ∧
      (∃ c ∈ generateInitialPassword r sort, c ∈ upperChars) ∧
      (∃ c ∈ generateInitialPassword r sort, c ∈ lowerChars) ∧
      (∃ c ∈ generateInitialPassword r sort, c ∈ numChars) ∧
      (∃ c ∈ generateInitialPassword r sort, c ∈ specialChars) ∧
      ∀ c ∈ generateInitialPassword r sort, c ∈ allChars := by
  rw [generateInitialPassword_eq r sort hsort]
  have hlen : (sort (passwordBase r)).length = 20 :=
    hsort.length_eq.trans (passwordBase_length r)
  refine ⟨⟨by omega, by omega⟩, ?_, ?_, ?_, ?_, ?_⟩
  · exact ⟨randPick upperChars (r 0), hsort.mem_iff.mpr
      (List.mem_append_left _ (List.mem_append_left _ (List.mem_append_left _
        (List.mem_append_left _ (randStr_head_mem 4 upperChars r 0 (by decide)))))),
      randPick_mem _ _ (by decide)⟩
  · exact ⟨randPick lowerChars (r 4), hsort.mem_iff.mpr
      (List.mem_append_left _ (List.mem_append_left _ (List.mem_append_left _
        (List.mem_append_right _ (randStr_head_mem 4 lowerChars r 4 (by decide)))))),
      randPick_mem _ _ (by decide)⟩
  · exact ⟨randPick numChars (r 8), hsort.mem_iff.mpr
      (List.mem_append_left _ (List.mem_append_left _ (List.mem_append_right _
        (randStr_head_mem 4 numChars r 8 (by decide))))),
      randPick_mem _ _ (by decide)⟩
  · exact ⟨randPick specialChars (r 12), hsort.mem_iff.mpr
      (List.mem_append_left _ (List.mem_append_right _
        (randStr_head_mem 4 specialChars r 12 (by decide)))),
      randPick_mem _ _ (by decide)⟩
  · intro c hc
    exact mem_passwordBase_mem_allChars r c (hsort.mem_iff.mp hc)

/-- Witness for C5 at a concrete random stream and the identity shuffle. -/

theorem generateInitialPassword_complexity_witness :
    (16 ≤ (generateInitialPassword (fun _ => 0) id).length ∧
        (generateInitialPassword (fun _ => 0) id).length ≤ 20) ∧
      (∃ c ∈ generateInitialPassword (fun _ => 0) id, c ∈ upperChars) ∧
      (∃ c ∈ generateInitialPassword (fun _ => 0) id, c ∈ lowerChars) ∧
      (∃ c ∈ generateInitialPassword (fun _ => 0) id, c ∈ numChars) ∧
      (∃ c ∈ generateInitialPassword (fun _ => 0) id, c ∈ specialChars) ∧
      ∀ c ∈ generateInitialPassword (fun _ => 0) id, c ∈ allChars :=
  generateInitialPassword_complexity (fun _ => 0) id (List.Perm.refl _)

/-- Claim C10: every character of a generated password comes from the four
fixed sets, none of which contains the visually ambiguous characters
0, 1, I, O or l. -/

theorem generateInitialPassword_no_ambiguous (r : Nat → Nat) (sort : List Char → List Char)
    (hsort : (sort (passwordBase r)).Perm (passwordBase r)) :
    (∀ c ∈ generateInitialPassword r sort,
        c ∈ allChars ∧ c ∉ (['0', '1', 'I', 'O', 'l'] : List Char)) ∧
      ∀ c ∈ (['0', '1', 'I', 'O', 'l'] : List Char), c ∉ allChars := by
  have hexcl : ∀ x ∈ allChars, x ∉ (['0', '1', 'I', 'O', 'l'] : List Char) := by decide
  refine ⟨?_, by decide⟩
  intro c hc
  rw [generateInitialPassword_eq r sort hsort] at hc
  have hall := mem_passwordBase_mem_allChars r c (hsort.mem_iff.mp hc)
  exact ⟨hall, hexcl c hall⟩

/-- Witness for C10 at a concrete random stream and the identity shuffle. -/

theorem generateInitialPassword_no_ambiguous_witness :
    (∀ c ∈ generateInitialPassword (fun _ => 0) id,
        c ∈ allChars ∧ c ∉ (['0', '1', 'I', 'O', 'l'] : List Char)) ∧
      ∀ c ∈ (['0', '1', 'I', 'O', 'l'] : List Char), c ∉ allChars :=
  generateInitialPassword_no_ambiguous (fun _ => 0) id (List.Perm.refl _)

theorem jsOr3_tail_indep (a b c t1 t2 : Option String)
    (h : truthy (jsOr a (jsOr b c)) = true) :
    jsOr a (jsOr b (jsOr c t1)) = jsOr a (jsOr b (jsOr c t2)) := by
  cases ha : truthy a <;> cases hb : truthy b <;> cases hc : truthy c <;>
    simp_all [jsOr]

/-- Claim C9: in production mode loadClientCredentials never consults the
client-variables file, and in every mode the environment takes precedence,
so when the environment supplies all three credentials the result is
independent of the file contents. -/

theorem loadClientCredentials_env_precedence (env f1 f2 : String → Option String)
    (h : env "NODE_ENV" = some "production" ∨
      (truthy (jsOr (env "AZ_TENANT_ID") (jsOr (env "tenantId") (env "TENANT_ID"))) = true ∧
        truthy (jsOr (env "AZ_CLIENT_ID") (jsOr (env "clientId") (env "CLIENT_ID"))) = true ∧
        truthy (jsOr (env "AZ_CLIENT_SECRET") (jsOr (env "secret") (env "CLIENT_SECRET"))) = true)) :
    loadClientCredentials env f1 = loadClientCredentials env f2 := by
  rcases h with hp | ⟨h1, h2, h3⟩
  · simp [loadClientCredentials, hp]
  · by_cases hp : env "NODE_ENV" = some "production"
    · simp [loadClientCredentials, hp]
    · have e1 : credTenantId env f1 = credTenantId env f2 :=
        jsOr3_tail_indep _ _ _ _ _ h1
      have e2 : credClientId env f1 = credClientId env f2 :=
        jsOr3_tail_indep _ _ _ _ _ h2
      have e3 : credClientSecret env f1 = credClientSecret env f2 :=
        jsOr3_tail_indep _ _ _ _ _ h3
      simp [loadClientCredentials, hp, e1, e2, e3]

/-- Witness for C9: with all three credentials in the environment, an empty
file and a file answering every key give the same credentials. -/

theorem loadClientCredentials_env_precedence_witness :
    (envAllCreds "NODE_ENV" = some "production" ∨
      (truthy (jsOr (envAllCreds "AZ_TENANT_ID")
          (jsOr (envAllCreds "tenantId") (envAllCreds "TENANT_ID"))) = true ∧
        truthy (jsOr (envAllCreds "AZ_CLIENT_ID")
          (jsOr (envAllCreds "clientId") (envAllCreds "CLIENT_ID"))) = true ∧
        truthy (jsOr (envAllCreds "AZ_CLIENT_SECRET")
          (jsOr (envAllCreds "secret") (envAllCreds "CLIENT_SECRET"))) = true)) ∧
      loadClientCredentials envAllCreds emptyVars =
        loadClientCredentials envAllCreds (fun _ => some "from-file") :=
  ⟨Or.inr ⟨by decide, by decide, by decide⟩,
    loadClientCredentials_env_precedence envAllCreds emptyVars (fun _ => some "from-file")
      (Or.inr ⟨by decide, by decide, by decide⟩)⟩

/-- Claim C7: with an authenticated principal carrying a delegated token and
a successful Graph call, the served profile is the overlay where each field
takes the Graph-derived value when that value is truthy and the
claim-derived value otherwise; when the Graph call fails (HTTP error or
thrown) or no token is present, the request still answers 200 with the
claims-only base profile. -/

theorem apiProfile_graph_precedence (p : Principal) (rest : List Principal)
    (g : GraphProfile) (huid : truthy p.user_id = true) :
    (truthy p.access_token = true →
      apiProfile (AuthMeResult.ok (p :: rest)) (GraphCallResult.ok g) =
        { status := 200, profile := some (overlayGraph (baseProfile p) g)
          authProvider := p.identity_provider, graph := some g } ∧
      (overlayGraph (baseProfile p) g).displayName =
        (if truthy g.displayName then g.displayName else (baseProfile p).displayName) ∧
      (overlayGraph (baseProfile p) g).firstName =
        (if truthy g.givenName then g.givenName else (baseProfile p).firstName) ∧
      (overlayGraph (baseProfile p) g).lastName =
        (if truthy g.surname then g.surname else (baseProfile p).lastName) ∧
      (overlayGraph (baseProfile p) g).email =
        (if truthy g.mail then g.mail
          else if truthy g.userPrincipalName then g.userPrincipalName
          else (baseProfile p).email) ∧
      (overlayGraph (baseProfile p) g).department =
        (if truthy g.department then g.department else (baseProfile p).department) ∧
      (overlayGraph (baseProfile p) g).jobTitle =
        (if truthy g.jobTitle then g.jobTitle else (baseProfile p).jobTitle) ∧
      (overlayGraph (baseProfile p) g).phone =
        (if truthy g.mobilePhone then g.mobilePhone
          else if truthy g.businessPhones.head? then g.businessPhones.head?
          else (baseProfile p).phone) ∧
      (overlayGraph (baseProfile p) g).officeLocation =
        (if truthy g.officeLocation then g.officeLocation else none)) ∧
    (truthy p.access_token = true →
      (∀ s, apiProfile (AuthMeResult.ok (p :: rest)) (GraphCallResult.httpError s) =
        { status := 200, profile := some (baseProfile p)
          authProvider := p.identity_provider, graph := none }) ∧
      apiProfile (AuthMeResult.ok (p :: rest)) GraphCallResult.thrown =
        { status := 200, profile := some (baseProfile p)
          authProvider := p.identity_provider, graph := none }) ∧
    (truthy p.access_token = false →
      ∀ gc, apiProfile (AuthMeResult.ok (p :: rest)) gc =
        { status := 200, profile := some (baseProfile p)
          authProvider := p.identity_provider, graph := none }) := by
  refine ⟨?_, ?_, ?_⟩
  · intro htok
    refine ⟨?_, rfl, rfl, rfl, rfl, rfl, rfl, rfl, rfl⟩
    simp [apiProfile, huid, htok]
  · intro htok
    constructor
    · intro s
      simp [apiProfile, huid, htok]
    · simp [apiProfile, huid, htok]
  · intro htok
    intro gc
    cases gc <;> simp [apiProfile, huid, htok]

/-- Witness for C7 at a concrete principal and Graph payload. -/

theorem apiProfile_graph_precedence_witness :
    truthy wPrincipal.user_id = true ∧
      truthy wPrincipal.access_token = true ∧
      apiProfile (AuthMeResult.ok [wPrincipal]) (GraphCallResult.ok wGraph) =
        { status := 200, profile := some (overlayGraph (baseProfile wPrincipal) wGraph)
          authProvider := wPrincipal.identity_provider, graph := some wGraph } ∧
      apiProfile (AuthMeResult.ok [wPrincipal]) GraphCallResult.thrown =
        { status := 200, profile := some (baseProfile wPrincipal)
          authProvider := wPrincipal.identity_provider, graph := none } :=
  ⟨by decide, by decide,
    ((apiProfile_graph_precedence wPrincipal [] wGraph (by decide)).1 (by decide)).1,
    ((apiProfile_graph_precedence wPrincipal [] wGraph (by decide)).2.1 (by decide)).2⟩

/-- Counterexample to claim C8 as stated: when resolving or decoding the
authentication material for /api/auth/me raises an error, the handler
answers 200 with authenticated:false, not 500. -/

theorem apiAuthMe_decode_error_not_500 :
    apiAuthMe AuthMeResult.thrown =
        { status := 200, authenticated := false, user := none } ∧
      (apiAuthMe AuthMeResult.thrown).status ≠ 500 := by
  refine ⟨rfl, by decide⟩

/-- Claim C8 amended: /api/auth/status answers 200 with authenticated, user
(false and null without a principal header) and 500 when decoding raises;
/api/auth/me answers HTTP 200 on every input, returning authenticated:false
with a null user on any failure, decode errors included. -/

theorem apiAuth_status_codes :
    (∀ (hdr idp nameHdr : Option String) (decode : String → Except String UserInfo),
        truthy hdr = false →
        apiAuthStatus hdr idp nameHdr decode =
          { status := 200, authenticated := false, user := none }) ∧
      (∀ (hdr idp nameHdr : Option String) (decode : String → Except String UserInfo)
          (u : UserInfo),
        truthy hdr = true → decode (hdr.getD "") = Except.ok u →
        (apiAuthStatus hdr idp nameHdr decode).status = 200 ∧
          (apiAuthStatus hdr idp nameHdr decode).authenticated = true) ∧
      (∀ (hdr idp nameHdr : Option String) (decode : String → Except String UserInfo)
          (m : String),
        truthy hdr = true → decode (hdr.getD "") = Except.error m →
        apiAuthStatus hdr idp nameHdr decode =
          { status := 500, authenticated := false, user := none }) ∧
      ∀ auth : AuthMeResult, (apiAuthMe auth).status = 200 := by
  refine ⟨?_, ?_, ?_, ?_⟩
  · intro hdr idp nameHdr decode hh
    simp [apiAuthStatus, hh]
  · intro hdr idp nameHdr decode u hh hdec
    simp [apiAuthStatus, hh, hdec]
  · intro hdr idp nameHdr decode m hh hdec
    simp [apiAuthStatus, hh, hdec]
  · intro auth
    cases auth with
    | thrown => rfl
    | httpError s => rfl
    | ok data =>
      cases data with
      | nil => rfl
      | cons u rest =>
        by_cases hu : truthy u.user_id = true <;> simp [apiAuthMe, hu]

/-- Witness for the amended C8 at concrete inputs. -/

theorem apiAuth_status_codes_witness :
    (truthy (none : Option String) = false ∧
        apiAuthStatus none none none (fun _ => Except.error "bad") =
          { status := 200, authenticated := false, user := none }) ∧
      (truthy (some "hdr") = true ∧
        ((fun _ => Except.error "bad json" : String → Except String UserInfo))
            ((some "hdr").getD "") = Except.error "bad json" ∧
        apiAuthStatus (some "hdr") none none
            (fun _ => Except.error "bad json" : String → Except String UserInfo) =
          { status := 500, authenticated := false, user := none }) ∧
      (apiAuthMe AuthMeResult.thrown).status = 200 :=
  ⟨⟨rfl, apiAuth_status_codes.1 none none none (fun _ => Except.error "bad") rfl⟩,
    ⟨by decide, rfl,
      apiAuth_status_codes.2.2.1 (some "hdr") none none
        (fun _ => Except.error "bad json") "bad json" (by decide) rfl⟩,
    apiAuth_status_codes.2.2.2 AuthMeResult.thrown⟩

theorem updateRow_userId (form : IntakeForm) (now : Nat) (row : IntakeRow) :
    (updateRow form now row).userId = row.userId := rfl

theorem upsertIntakeForm_preserves_unique (s : List IntakeRow) (form : IntakeForm)
    (now : Nat) (hs : uniqueUserIds s) : uniqueUserIds (upsertIntakeForm s form now) := by
  unfold upsertIntakeForm
  split
  · rw [uniqueUserIds, List.pairwise_map]
    refine hs.imp ?_
    intro a b hab
    by_cases ha : a.userId == form.userId <;> by_cases hb : b.userId == form.userId <;>
      simp [ha, hb, updateRow_userId, hab]
  · rename_i hnone
    rw [List.any_eq_true] at hnone
    push_neg at hnone
    rw [uniqueUserIds, List.pairwise_append]
    refine ⟨hs, List.pairwise_singleton _ _, ?_⟩
    intro a ha b hb
    rw [List.mem_singleton] at hb
    subst hb
    have := hnone a ha
    simp only [beq_iff_eq] at this
    simpa [newRow] using this

theorem upsertIntakeForm_insert_of_absent (store : List IntakeRow) (f : IntakeForm)
    (now : Nat) (habsent : ∀ r ∈ store, r.userId ≠ f.userId) :
    upsertIntakeForm store f now = store ++ [newRow f now] := by
  have hany : store.any (fun r => r.userId == f.userId) = false := by
    rw [List.any_eq_false]
    intro r hr
    simpa using habsent r hr
  simp [upsertIntakeForm, hany]

/-- Claim C2: upsertIntakeForm keeps at most one row per userId (it is the
only mutation path: insert if absent, else update all mutable fields and
refresh UpdatedAt), and two submissions with the same userId starting from a
store without that user leave exactly one row for that userId, carrying the
second submission's field values and updated timestamp. -/

theorem upsertIntakeForm_one_row_per_user (store : List IntakeRow)
    (f1 f2 : IntakeForm) (n1 n2 : Nat) (hid : f1.userId = f2.userId)
    (habsent : ∀ r ∈ store, r.userId ≠ f1.userId) :
    (∀ (s : List IntakeRow) (form : IntakeForm) (now : Nat),
        uniqueUserIds s → uniqueUserIds (upsertIntakeForm s form now)) ∧
      upsertIntakeForm store f1 n1 = store ++ [newRow f1 n1] ∧
      (upsertIntakeForm (upsertIntakeForm store f1 n1) f2 n2).filter
          (fun r => r.userId == f2.userId) =
        [{ userId := f1.userId
           email := f2.email
           firstName := f2.firstName
           lastName := f2.lastName
           department := f2.department
           jobTitle := f2.jobTitle
           officeLocation := f2.officeLocation
           workPhone := f2.workPhone
           address := f2.address
           city := f2.city
           state := f2.state
           zipCode := f2.zipCode
           phone := f2.phone
           createdAt := n1
           updatedAt := n2 }] := by
  have hins := upsertIntakeForm_insert_of_absent store f1 n1 habsent
  refine ⟨upsertIntakeForm_preserves_unique, hins, ?_⟩
  rw [hins]
  have hany : (store ++ [newRow f1 n1]).any (fun r => r.userId == f2.userId) = true := by
    rw [List.any_eq_true]
    exact ⟨newRow f1 n1, by simp, by simp [newRow, hid]⟩
  rw [upsertIntakeForm, if_pos hany, List.map_append]
  have hmap : store.map
      (fun r => if r.userId == f2.userId then updateRow f2 n2 r else r) = store := by
    have h1 : store.map
        (fun r => if r.userId == f2.userId then updateRow f2 n2 r else r) =
        store.map id := by
      apply List.map_congr_left
      intro r hr
      have hne : ¬(r.userId == f2.userId) = true := by
        simp only [beq_iff_eq]
        intro h
        exact habsent r hr (h.trans hid.symm)
      simp [hne]
    rw [h1, List.map_id]
  rw [hmap]
  have hrow : (if (newRow f1 n1).userId == f2.userId
      then updateRow f2 n2 (newRow f1 n1) else newRow f1 n1) =
      updateRow f2 n2 (newRow f1 n1) := by
    simp [newRow, hid]
  rw [List.map_cons, List.map_nil, hrow, List.filter_append]
  have hfil : store.filter (fun r => r.userId == f2.userId) = [] := by
    rw [List.filter_eq_nil_iff]
    intro r hr
    simp only [beq_iff_eq]
    intro h
    exact habsent r hr (h.trans hid.symm)
  rw [hfil]
  simp [updateRow, newRow, hid]

/-- Witness for C2: two concrete submissions for the same user starting from
the empty store. -/

theorem upsertIntakeForm_one_row_per_user_witness :
    sampleForm1.userId = sampleForm2.userId ∧
      (∀ r ∈ ([] : List IntakeRow), r.userId ≠ sampleForm1.userId) ∧
      ((∀ (s : List IntakeRow) (form : IntakeForm) (now : Nat),
          uniqueUserIds s → uniqueUserIds (upsertIntakeForm s form now)) ∧
        upsertIntakeForm [] sampleForm1 0 = [] ++ [newRow sampleForm1 0] ∧
        (upsertIntakeForm (upsertIntakeForm [] sampleForm1 0) sampleForm2 1).filter
            (fun r => r.userId == sampleForm2.userId) =
          [{ userId := sampleForm1.userId
             email := sampleForm2.email
             firstName := sampleForm2.firstName
             lastName := sampleForm2.lastName
             department := sampleForm2.department
             jobTitle := sampleForm2.jobTitle
             officeLocation := sampleForm2.officeLocation
             workPhone := sampleForm2.workPhone
             address := sampleForm2.address
             city := sampleForm2.city
             state := sampleForm2.state
             zipCode := sampleForm2.zipCode
             phone := sampleForm2.phone
             createdAt := 0
             updatedAt := 1 }]) :=
  ⟨rfl, by simp,
    upsertIntakeForm_one_row_per_user [] sampleForm1 sampleForm2 0 1 rfl (by simp)⟩

theorem sanitize_some_chars (s : String) (max : Nat) :
    ∀ c ∈ (sanitize (some s) max "user").toList, isNicknameChar c = true := by
  intro c hc
  simp only [sanitize, String.toList] at hc
  have hmem := List.take_subset _ _ hc
  by_cases he : (List.filter isNicknameChar (nfkd s.data)).isEmpty = true
  · rw [if_pos he] at hmem
    have hall : ∀ x ∈ "user".toList, isNicknameChar x = true := by decide
    exact hall c hmem
  · rw [if_neg he] at hmem
    exact List.of_mem_filter hmem

theorem sanitize_some_length (s : String) (max : Nat) (fallback : String) :
    (sanitize (some s) max fallback).toList.length ≤ max := by
  simp only [sanitize, String.toList]
  rw [List.length_take]
  omega

/-- Claim C6: makeMailNickname yields the sanitized local part of an email
containing an at-sign (jane.doe at example.com gives jane.doe); with only
name fields it yields the sanitized dot-join of the names with diacritics
stripped and every character outside letter, digit, dot, underscore, hyphen
removed; fully empty input yields user; and every result is truncated to at
most 64 characters of the allowed class. -/

theorem makeMailNickname_spec :
    makeMailNickname none none (some "jane.doe@example.com") = "jane.doe" ∧
      (∀ f l e : Option String, truthy e = true →
        (e.getD "").toList.contains '@' = true →
        makeMailNickname f l e = sanitize (some (localPart (e.getD ""))) 64 "user") ∧
      makeMailNickname (some "José") (some "Núñez") none = "Jose.Nunez" ∧
      makeMailNickname none none none = "user" ∧
      ∀ f l e : Option String,
        (makeMailNickname f l e).toList.length ≤ 64 ∧
          ∀ c ∈ (makeMailNickname f l e).toList, isNicknameChar c = true := by
  refine ⟨by decide, ?_, by decide, by decide, ?_⟩
  · intro f l e he hat
    rw [makeMailNickname, if_pos (by rw [he, hat]; rfl)]
  · intro f l e
    by_cases h : (truthy e && (e.getD "").toList.contains '@') = true
    · rw [makeMailNickname, if_pos h]
      exact ⟨sanitize_some_length _ _ _, sanitize_some_chars _ _⟩
    · rw [makeMailNickname, if_neg h]
      exact ⟨sanitize_some_length _ _ _, sanitize_some_chars _ _⟩

/-- Witness for C6 at concrete inputs. -/

theorem makeMailNickname_spec_witness :
    truthy (some "a@b.c") = true ∧
      ("a@b.c".toList.contains '@') = true ∧
      makeMailNickname none none (some "a@b.c") =
        sanitize (some (localPart "a@b.c")) 64 "user" ∧
      ((makeMailNickname (some "x") none none).toList.length ≤ 64 ∧
        ∀ c ∈ (makeMailNickname (some "x") none none).toList, isNicknameChar c = true) :=
  ⟨by decide, by decide,
    makeMailNickname_spec.2.1 none none (some "a@b.c") (by decide) (by decide),
    makeMailNickname_spec.2.2.2.2 (some "x") none none⟩

theorem createUserPost_ok (env : GraphEnv) (a b c e : String)
    (h1 : 200 ≤ env.createStatus) (h2 : env.createStatus < 300) :
    ∃ u, createUserPost env a b c e = Except.ok u :=
  ⟨{ displayName := a, mailNickname := b, userPrincipalName := c,
      otherMails := if !e.isEmpty && jsToLower e ≠ jsToLower c then [e] else [] },
    by rw [createUserPost, if_pos ⟨h1, h2⟩]⟩

theorem fetchDefaultVerifiedDomain_ok_not_empty (domains : List VerifiedDomain)
    (d : String) (h : fetchDefaultVerifiedDomain domains = Except.ok d) :
    d.isEmpty = false := by
  unfold fetchDefaultVerifiedDomain at h
  split at h
  · cases h
  · split at h
    · cases h
    · rename_i hne
      injection h with h2
      rw [← h2]
      simpa using hne

theorem resolveUpnDomain_ok_not_empty (oU eU : Option String) (env : GraphEnv)
    (d : String) (h : resolveUpnDomain oU eU env = Except.ok d) : d.isEmpty = false := by
  simp only [resolveUpnDomain] at h
  split at h
  · rename_i ht
    injection h with h2
    rw [← h2]
    cases hj : jsOr oU (jsOr eU none) with
    | none => rw [hj] at ht; simp [truthy] at ht
    | some s =>
      rw [hj] at ht
      simp only [truthy] at ht
      simpa [hj] using ht
  · split at h
    · cases h
    · split at h
      · cases h
      · rename_i dd hf
        injection h with h2
        rw [← h2]
        exact fetchDefaultVerifiedDomain_ok_not_empty env.domains dd hf

/-- Claim C3 is violated by the code: pickUpn is only consulted after the
verified domain has been resolved, and it returns null whenever a domain is
passed, so the userPrincipalName is always mailNickname at domain and the
intake email is never used verbatim. At the failing input the intake email
is jane.doe at example.com with no UPN override, yet the created principal
name is jane.doe at contoso.com. -/

theorem createUserFromIntake_upn_ignores_email :
    janeIntake.email = some "jane.doe@example.com" ∧
      createUserFromIntake janeIntake none none contosoGraphEnv =
        Except.ok
          { displayName := "Jane Doe", mailNickname := "jane.doe"
            userPrincipalName := "jane.doe@contoso.com"
            otherMails := ["jane.doe@example.com"] } ∧
      ("jane.doe@contoso.com" : String) ≠ "jane.doe@example.com" := by
  refine ⟨rfl, by decide, by decide⟩

/-- Counterexample to claim C4 as stated: with a missing intake email and a
healthy provider, createUserFromIntake raises no validation error — it
proceeds to the user-creation call and succeeds with the principal name
mailNickname at domain. -/

theorem createUserFromIntake_missing_email_ok :
    anaIntake.email = none ∧
      createUserFromIntake anaIntake none none contosoGraphEnv =
        Except.ok
          { displayName := "Ana Lopez", mailNickname := "Ana.Lopez"
            userPrincipalName := "Ana.Lopez@contoso.com", otherMails := [] } := by
  refine ⟨rfl, by decide⟩

/-- Claim C4 amended: createUserFromIntake performs no email validation — a
missing email still reaches the user-creation call and succeeds when the
provider accepts it; and whenever the user-creation endpoint returns a
non-success status (token and domain resolution having succeeded) it fails
with a provider error carrying the upstream HTTP status code. -/

theorem createUserFromIntake_error_behavior :
    (∀ (intake : Intake) (oU eU : Option String) (env : GraphEnv),
        env.tokenOk = true →
        (∃ d, resolveUpnDomain oU eU env = Except.ok d) →
        ¬(200 ≤ env.createStatus ∧ env.createStatus < 300) →
        ∃ m, createUserFromIntake intake oU eU env =
          Except.error ⟨m, some env.createStatus⟩) ∧
      ∀ (intake : Intake) (oU eU : Option String) (env : GraphEnv),
        intake.email = none →
        env.tokenOk = true →
        (∃ d, resolveUpnDomain oU eU env = Except.ok d) →
        200 ≤ env.createStatus → env.createStatus < 300 →
        ∃ u, createUserFromIntake intake oU eU env = Except.ok u := by
  constructor
  · intro intake oU eU env htok hd hstat
    obtain ⟨d, hd⟩ := hd
    have hne : d.isEmpty = false := resolveUpnDomain_ok_not_empty oU eU env d hd
    simp only [createUserFromIntake, htok, Bool.not_true, Bool.false_eq_true,
      if_false, hd]
    cases hp : pickUpn intake.email (some d) with
    | some u => exact ⟨"Graph create user failed", by simp [createUserPost, hstat]⟩
    | none =>
      refine ⟨"Graph create user failed", ?_⟩
      simp [hne, createUserPost, hstat]
  · intro intake oU eU env hmail htok hd h1 h2
    obtain ⟨d, hd⟩ := hd
    have hne : d.isEmpty = false := resolveUpnDomain_ok_not_empty oU eU env d hd
    simp only [createUserFromIntake, htok, Bool.not_true, Bool.false_eq_true,
      if_false, hd]
    have hp : pickUpn intake.email (some d) = none := by
      simp [pickUpn, hmail, truthy, hne]
    rw [hp]
    simp only [hne, Bool.false_eq_true, if_false]
    exact createUserPost_ok env _ _ _ _ h1 h2

/-- Witness for the amended C4 at concrete inputs: a rejected creation call
surfaces status 403, and a missing email still creates successfully. -/

theorem createUserFromIntake_error_behavior_witness :
    ((contoso403Env.tokenOk = true ∧
        (∃ d, resolveUpnDomain none none contoso403Env = Except.ok d) ∧
        ¬(200 ≤ contoso403Env.createStatus ∧ contoso403Env.createStatus < 300)) ∧
      ∃ m, createUserFromIntake anaIntake none none contoso403Env =
        Except.error ⟨m, some contoso403Env.createStatus⟩) ∧
      ∃ u, createUserFromIntake anaIntake none none contosoGraphEnv = Except.ok u :=
  ⟨⟨⟨by decide, ⟨"contoso.com", by decide⟩, by decide⟩,
      createUserFromIntake_error_behavior.1 anaIntake none none contoso403Env
        (by decide) ⟨"contoso.com", by decide⟩ (by decide)⟩,
    createUserFromIntake_error_behavior.2 anaIntake none none contosoGraphEnv rfl
      (by decide) ⟨"contoso.com", by decide⟩ (by decide) (by decide)⟩

/-- Claim C1: POST /api/intake answers 200 with message and the optional
accountCreation and efsmodeInvite fields once the intake is persisted
(irrespective of provisioning failures, which only surface as error
fields); 400 when no email is derivable; 401 with no database write when no
principal resolves; and 500 when persistence fails. -/

theorem apiIntake_status_contract :
    (∀ req : IntakeRequest, req.principal = none →
        apiIntake req =
          { status := 401, dbWritten := false, hasMessage := false
            accountCreationError := none, efsmodeInviteError := none }) ∧
      (∀ (req : IntakeRequest) (uid : String), req.principal = some uid →
        truthy (jsOr req.profileEmail req.payloadEmail) = false →
        apiIntake req =
          { status := 400, dbWritten := false, hasMessage := false
            accountCreationError := none, efsmodeInviteError := none }) ∧
      (∀ (req : IntakeRequest) (uid : String), req.principal = some uid →
        truthy (jsOr req.profileEmail req.payloadEmail) = true →
        req.persistOk = false →
        apiIntake req =
          { status := 500, dbWritten := false, hasMessage := false
            accountCreationError := none, efsmodeInviteError := none }) ∧
      ∀ (req : IntakeRequest) (uid : String), req.principal = some uid →
        truthy (jsOr req.profileEmail req.payloadEmail) = true →
        req.persistOk = true →
        apiIntake req =
          { status := 200, dbWritten := true, hasMessage := true
            accountCreationError := req.accountCreationError
            efsmodeInviteError := req.efsmodeInviteError } := by
  refine ⟨?_, ?_, ?_, ?_⟩
  · intro req h
    simp [apiIntake, h]
  · intro req uid h he
    simp [apiIntake, h, he]
  · intro req uid h he hp
    simp [apiIntake, h, he, hp]
  · intro req uid h he hp
    simp [apiIntake, h, he, hp]

/-- Witness for C1 at concrete requests. -/

theorem apiIntake_status_contract_witness :
    (anonIntakeReq.principal = none ∧
        apiIntake anonIntakeReq =
          { status := 401, dbWritten := false, hasMessage := false
            accountCreationError := none, efsmodeInviteError := none }) ∧
      okIntakeReq.principal = some "abc123" ∧
      truthy (jsOr okIntakeReq.profileEmail okIntakeReq.payloadEmail) = true ∧
      okIntakeReq.persistOk = true ∧
      apiIntake okIntakeReq =
        { status := 200, dbWritten := true, hasMessage := true
          accountCreationError := okIntakeReq.accountCreationError
          efsmodeInviteError := okIntakeReq.efsmodeInviteError } :=
  ⟨⟨rfl, apiIntake_status_contract.1 anonIntakeReq rfl⟩, rfl, by decide, rfl,
    apiIntake_status_contract.2.2.2 okIntakeReq "abc123" rfl (by decide) rfl⟩
